/-
Verification of the trk2dictionary conversion module
(`src/commit/trk2dictionary/trk2dictionary.pyx`) against its
natural-language specification.

The Python/Cython source is shallowly embedded below:
  * the index encoders of `convert_old_dictionary` (lines 426-454) become
    pure functions on `Nat`, with the numpy `uint32`/`uint16` array
    arithmetic made explicit as reduction modulo 2^32 / 2^16;
  * `convert_old_dictionary` itself becomes a state transformer on an
    abstract directory record, where a raised Python exception leaves the
    directory in the state it had at the point of failure;
  * `run` becomes an executable function from a configuration and an
    abstract external environment (file headers, native-call outcome) to a
    trace of I/O / output events plus an outcome, following the source's
    control flow statement by statement.
-/
import Mathlib

set_option maxHeartbeats 1000000

/-! ## Index encoders (`convert_old_dictionary`, lines 426-454)

The legacy voxel-index files store `uint16` (IC) or `uint8` (EC) values;
the migration casts them to `uint32` and computes `v = x + Nx*(y + Ny*z)`
in `uint32` arithmetic, i.e. modulo 2^32.  The legacy orientation files
store `uint8` values cast to `uint16`, combined as `v = y + 181*x` in
`uint16` arithmetic, i.e. modulo 2^16. -/

/-- `v = x + Nx * ( y + Ny * z )` computed in numpy `uint32` arithmetic
(trk2dictionary.pyx lines 429 and 438). -/
def encodeVoxelU32 (Nx Ny : ℕ) (x y z : ℕ) : ℕ :=
  (x + Nx * (y + Ny * z)) % 2 ^ 32

/-- `v = y + 181 * x` computed in numpy `uint16` arithmetic
(trk2dictionary.pyx lines 446 and 453); `x` is the legacy `ox` stream and
`y` the legacy `oy` stream. -/
def encodeOrientU16 (x y : ℕ) : ℕ :=
  (y + 181 * x) % 2 ^ 16

/-- Element-wise voxel encoding of three equal-length legacy streams
(the numpy vectorised expression on lines 429/438). -/
def encodeVoxStream (Nx Ny : ℕ) : List ℕ → List ℕ → List ℕ → List ℕ
  | x :: xs, y :: ys, z :: zs =>
      encodeVoxelU32 Nx Ny x y z :: encodeVoxStream Nx Ny xs ys zs
  | _, _, _ => []

/-- Element-wise orientation encoding of two equal-length legacy streams
(the numpy vectorised expression on lines 446/453). -/
def encodeOrientStream : List ℕ → List ℕ → List ℕ
  | x :: xs, y :: ys => encodeOrientU16 x y :: encodeOrientStream xs ys
  | _, _ => []

/-! ## Directory model and `convert_old_dictionary` (lines 411-456)

A directory is modelled by the files the migration touches: the TDI image
(only its shape is read, line 425), the ten legacy `.dict` files and the
four merged `.dict` files.  `none` means the file is absent.  A raised
exception (missing file) leaves the directory as it was at the point of
failure, so the operation is a function to a state/error pair. -/

structure DictDir where
  tdi : Option (ℕ × ℕ × ℕ)
  IC_vx : Option (List ℕ)
  IC_vy : Option (List ℕ)
  IC_vz : Option (List ℕ)
  EC_vx : Option (List ℕ)
  EC_vy : Option (List ℕ)
  EC_vz : Option (List ℕ)
  IC_ox : Option (List ℕ)
  IC_oy : Option (List ℕ)
  EC_ox : Option (List ℕ)
  EC_oy : Option (List ℕ)
  IC_v : Option (List ℕ)
  EC_v : Option (List ℕ)
  IC_o : Option (List ℕ)
  EC_o : Option (List ℕ)
deriving DecidableEq, Repr

inductive ConvErr where
  /-- `RuntimeError('Folder does not contain dictionary files in the old format')`,
  line 422. -/
  | legacyMissing
  /-- An unhandled I/O exception from `nibabel.load` / `np.fromfile` on a
  missing file. -/
  | readFailed
deriving DecidableEq, Repr

abbrev ConvState := DictDir × Option ConvErr

/-- Lines 421-433: the existence check on `dictionary_IC_vx.dict`, the TDI
shape read, and the IC voxel-stream rewrite (read x/y/z, write `IC_v`,
remove the three legacy files). -/
def convStepICv (s : ConvState) : ConvState :=
  match s with
  | (d, some e) => (d, some e)
  | (d, none) =>
    match d.IC_vx with
    | none => (d, some ConvErr.legacyMissing)
    | some xs =>
      match d.tdi with
      | none => (d, some ConvErr.readFailed)
      | some (Nx, Ny, _) =>
        match d.IC_vy, d.IC_vz with
        | some ys, some zs =>
          ({ d with IC_v := some (encodeVoxStream Nx Ny xs ys zs),
                    IC_vx := none, IC_vy := none, IC_vz := none }, none)
        | _, _ => (d, some ConvErr.readFailed)

/-- Lines 435-442: the EC voxel-stream rewrite. -/
def convStepECv (s : ConvState) : ConvState :=
  match s with
  | (d, some e) => (d, some e)
  | (d, none) =>
    match d.tdi with
    | none => (d, some ConvErr.readFailed)
    | some (Nx, Ny, _) =>
      match d.EC_vx, d.EC_vy, d.EC_vz with
      | some xs, some ys, some zs =>
        ({ d with EC_v := some (encodeVoxStream Nx Ny xs ys zs),
                  EC_vx := none, EC_vy := none, EC_vz := none }, none)
      | _, _, _ => (d, some ConvErr.readFailed)

/-- Lines 444-449: the IC orientation-stream rewrite. -/
def convStepICo (s : ConvState) : ConvState :=
  match s with
  | (d, some e) => (d, some e)
  | (d, none) =>
    match d.IC_ox, d.IC_oy with
    | some xs, some ys =>
      ({ d with IC_o := some (encodeOrientStream xs ys),
                IC_ox := none, IC_oy := none }, none)
    | _, _ => (d, some ConvErr.readFailed)

/-- Lines 451-456: the EC orientation-stream rewrite. -/
def convStepECo (s : ConvState) : ConvState :=
  match s with
  | (d, some e) => (d, some e)
  | (d, none) =>
    match d.EC_ox, d.EC_oy with
    | some xs, some ys =>
      ({ d with EC_o := some (encodeOrientStream xs ys),
                EC_ox := none, EC_oy := none }, none)
    | _, _ => (d, some ConvErr.readFailed)

/-- `convert_old_dictionary` (lines 411-456) as a state transformer on the
directory, returning the final directory state and the raised error, if
any. -/
def convert_old_dictionary (d : DictDir) : ConvState :=
  convStepECo (convStepICo (convStepECv (convStepICv (d, none))))

/-- All ten legacy `.dict` files are present. -/
def hasLegacyFiles (d : DictDir) : Bool :=
  d.IC_vx.isSome && d.IC_vy.isSome && d.IC_vz.isSome &&
  d.EC_vx.isSome && d.EC_vy.isSome && d.EC_vz.isSome &&
  d.IC_ox.isSome && d.IC_oy.isSome && d.EC_ox.isSome && d.EC_oy.isSome

/-- None of the ten legacy `.dict` files is present. -/
def noLegacyFiles (d : DictDir) : Bool :=
  d.IC_vx.isNone && d.IC_vy.isNone && d.IC_vz.isNone &&
  d.EC_vx.isNone && d.EC_vy.isNone && d.EC_vz.isNone &&
  d.IC_ox.isNone && d.IC_oy.isNone && d.EC_ox.isNone && d.EC_oy.isNone

/-- All four merged `.dict` files are present. -/
def hasMergedFiles (d : DictDir) : Bool :=
  d.IC_v.isSome && d.EC_v.isSome && d.IC_o.isSome && d.EC_o.isSome

/-! ## Configuration and environment for `run` (lines 26-408)

`run` is embedded as an executable function from a configuration (its
keyword arguments) and an environment (the observable outside world: file
headers by name, outcome of the native conversion call, contents of the
kept-streamlines file) to a result consisting of a trace of I/O / output
events, an outcome, and the data written to the filtered tractogram. -/

/-- `fiber_shift` may be a scalar or a list (lines 125-134). -/
inductive FiberShift where
  | scalar (v : ℚ)
  | vec (xs : List ℚ)
deriving DecidableEq, Repr

/-- Lines 125-134: a scalar is accepted, a list is accepted only with
exactly 3 elements, anything else raises
`RuntimeError('fiber_shift must be a scalar or a vector with 3 elements')`. -/
def fiberShiftBad : FiberShift → Bool
  | FiberShift.scalar _ => false
  | FiberShift.vec xs => xs.length != 3

structure RunConfig where
  filename_tractogram : Option String
  path_out : Option String
  filename_peaks : Option String
  filename_mask : Option String
  do_intersect : Bool
  fiber_shift : FiberShift
  points_to_skip : ℕ
  vf_THR : ℚ
  peaks_use_affine : Bool
  flip_peaks : Bool × Bool × Bool
  min_seg_len : ℚ
  gen_trk : Bool
  blur_radii : List ℚ
  blur_samples : List ℕ
  blur_sigma : ℚ
  filename_trk : Option String
  TCK_ref_image : Option String
  ndirs : ℕ
deriving DecidableEq, Repr

/-- Header of a tractogram file as `nibabel.streamlines.load(...).header`
exposes it: the `.trk` branch (lines 227-238) reads `dimensions`,
`voxel_sizes` and the three counts; the `.tck` branch (lines 268-270)
reads `_offset_data` and `count`. -/
structure TractHeader where
  dimx : ℕ
  dimy : ℕ
  dimz : ℕ
  px : ℚ
  py : ℚ
  pz : ℚ
  nb_streamlines : ℕ
  nb_scalars : ℕ
  nb_properties : ℕ
  offset_data : ℕ
  count : ℕ
deriving DecidableEq, Repr

/-- Header of a NIfTI volume as the code reads it: the first four shape
entries and `pixdim[1..3]`. -/
structure NiiHeader where
  shape1 : ℕ
  shape2 : ℕ
  shape3 : ℕ
  shape4 : ℕ
  pixdim1 : ℚ
  pixdim2 : ℚ
  pixdim3 : ℚ
deriving DecidableEq, Repr

/-- The external world `run` interacts with. `tract` and `nii` map a
filename to its header when the file exists and is readable; `convResult`
is whether the native `trk2dictionary` call returns nonzero (line 372);
`keptFlags` is the content of `dictionary_TRK_kept.dict` after the native
call; `streamlines` maps a tractogram filename to its streamlines
(abstracted to identifiers). -/
structure Env where
  tract : String → Option TractHeader
  nii : String → Option NiiHeader
  outDirExists : Bool
  convResult : Bool
  keptFlags : List Bool
  streamlines : String → List ℕ

/-- Observable I/O and output-producing actions of `run`, in program
order. -/
inductive Event where
  /-- `amico.lut.load_precomputed_hash_table` (line 199). -/
  | loadHashTable
  /-- `nibabel.streamlines.load(filename_tractogram).header` (line 223). -/
  | loadTractHeader
  /-- `nibabel.load` of a NIfTI file header (lines 254, 303, 326). -/
  | loadNii (name : String)
  /-- reading the full data array of a NIfTI file, `get_data()`
  (lines 310, 340). -/
  | loadNiiData (name : String)
  /-- `makedirs(path_out)` (line 359). -/
  | makedirs
  /-- writing `dictionary_info.pickle` (lines 362-363). -/
  | writeInfoPickle
  /-- the native conversion pass, `trk2dictionary(...)` (line 366). -/
  | convPass
  /-- `nibabel.streamlines.load(filename_tractogram)` with full data
  (line 380). -/
  | loadTractData
  /-- `np.fromfile(dictionary_TRK_kept.dict)` (line 383). -/
  | readKeptFile
  /-- `nibabel.streamlines.save(...)` of the filtered tractogram
  (line 389). -/
  | writeFilteredTract
  /-- `nibabel.save(dictionary_tdi.nii.gz)` (line 402). -/
  | writeTDI
  /-- `nibabel.save(dictionary_mask.nii.gz)` (line 408). -/
  | writeMaskImage
deriving DecidableEq, Repr

inductive RunError where
  /-- Python `TypeError` from `path_out + '/dictionary_info.pickle'`
  when `path_out` is `None` (line 101): an incidental crash, not one of
  the structured `raise` statements. -/
  | typeError
  /-- `RuntimeError('Unsupported value for ndirs...')` (line 122). -/
  | invalidNdirs
  /-- `RuntimeError('fiber_shift must be a scalar or a vector with 3 elements')`
  (line 134). -/
  | badFiberShift
  /-- `RuntimeError('number of radii and samples must match')` (line 158). -/
  | blurMismatch
  /-- `RuntimeError('min_seg_len must be >= 0')` (line 194). -/
  | negMinSegLen
  /-- `RuntimeError('Path out not defined')` (line 206). -/
  | pathOutMissing
  /-- `RuntimeError('Tractogram file not defined')` (line 209). -/
  | tractogramMissing
  /-- `IOError('Invalid input file. Please enter tractogram file .trk or .tck')`
  (line 221). -/
  | invalidExtension
  /-- `IOError('Tractogram file not found')` (line 225). -/
  | tractNotFound
  /-- `RuntimeError('TCK files do not contain information about the geometry...')`
  (line 249). -/
  | noGeometry
  /-- an unhandled `FileNotFoundError` from `nibabel.load` of a missing
  NIfTI file. -/
  | fileNotFound
  /-- `RuntimeError('The max dim size is 2^16 voxels')` (line 280). -/
  | dimOverflow
  /-- `RuntimeError('PEAKS dataset must have 3*k volumes')` (line 337). -/
  | peaksBad3
  /-- `RuntimeError('vf_THR must be between 0 and 1')` (line 339). -/
  | vfThrRange
deriving DecidableEq, Repr

/-- Result of one call to `run`: the event trace up to return or raise,
the raised error (if any), whether the dictionary was generated (`ret != 0`
on line 372 and the function ran to completion), the tractogram filename
actually used after the deprecated-parameter resolution, and the filtered
tractogram written when `gen_trk` is active (kept streamlines and the
header streamline count). -/
structure RunResult where
  trace : List Event
  error : Option RunError
  generated : Bool
  usedTractogram : Option String
  filtered : Option (List ℕ × ℕ)
deriving DecidableEq, Repr

def prependEvents (es : List Event) (r : RunResult) : RunResult :=
  { r with trace := es ++ r.trace }

/-- The validity check `amico.lut.is_valid(ndirs)` used on line 121.
Modelled from the spec: `amico.lut.is_valid` belongs to the external
`amico` package and is not part of this repository; the spec (and the
error message on line 122) enumerate the supported set
`{500, 1000, ..., 10000 step 500, 32761}`. -/
def is_valid (ndirs : ℕ) : Bool :=
  [500, 1000, 1500, 2000, 2500, 3000, 3500, 4000, 4500, 5000, 5500,
   6000, 6500, 7000, 7500, 8000, 8500, 9000, 9500, 10000, 32761].contains ndirs

/-- Position of the last `'.'`-separated suffix: returns the characters
after the last dot, or `none` when there is no dot. -/
def lastDotSuffix : List Char → Option (List Char)
  | [] => none
  | '.' :: rest =>
    match lastDotSuffix rest with
    | some e => some e
    | none => some rest
  | _ :: rest => lastDotSuffix rest

/-- `splitext(filename)[1]` (line 218): the extension including the dot,
or the empty string when the name has no dot. -/
def extensionOf (s : String) : String :=
  match lastDotSuffix s.data with
  | some e => String.mk ('.' :: e)
  | none => ""

/-- Lines 208-216: resolution of `filename_tractogram` against the
deprecated `filename_trk`. `none` is the
`RuntimeError('Tractogram file not defined')` case; when both are given
the code only prints a warning and uses `filename_tractogram`; when only
`filename_trk` is given it is used as the tractogram path. -/
def resolveTract (filename_tractogram filename_trk : Option String) : Option String :=
  match filename_tractogram, filename_trk with
  | none, none => none
  | some t, _ => some t
  | none, some t => some t

/-- Line 279, transcribed exactly:
`if Nx >= 2**16 or Nz >= 2**16 or Nz >= 2**16` — the source tests `Nz`
twice and never tests `Ny`. -/
def dimCheckFails (Nx Ny Nz : ℕ) : Bool :=
  decide (Nx ≥ 2 ^ 16) || decide (Nz ≥ 2 ^ 16) || decide (Nz ≥ 2 ^ 16)

/-- numpy boolean-mask selection `fib.tractogram[file_kept]` (line 384):
keeps, in order, the elements whose flag is `true`. -/
def maskSelect {α : Type} (xs : List α) (kept : List Bool) : List α :=
  ((xs.zip kept).filter (fun p => p.2)).map Prod.fst

/-- Lines 356-408: output-directory creation, metadata write, the native
conversion call, optional filtered-tractogram generation, and the TDI and
mask image writes.  `evPre` is the trace accumulated by the earlier
stages. -/
def runOut (c : RunConfig) (env : Env) (ftract : String) (evPre : List Event) : RunResult :=
  let ev1 := evPre ++ (if env.outDirExists then [] else [Event.makedirs]) ++
    [Event.writeInfoPickle]
  let ev2 := ev1 ++ [Event.convPass]
  if env.convResult = false then
    { trace := ev2, error := none, generated := false,
      usedTractogram := some ftract, filtered := none }
  else
    let (ev3, filt) :=
      if c.gen_trk then
        let keptOut := maskSelect (env.streamlines ftract) env.keptFlags
        (ev2 ++ [Event.loadTractData, Event.readKeptFile, Event.writeFilteredTract],
         some (keptOut, keptOut.length))
      else (ev2, none)
    { trace := ev3 ++ [Event.writeTDI, Event.writeMaskImage], error := none,
      generated := true, usedTractogram := some ftract, filtered := filt }

/-- Lines 279-354: the grid-extent check, the mask load, and the peaks
load with its two configuration checks, given the resolved geometry
`(Nx, Ny, Nz)`. -/
def runPost (c : RunConfig) (env : Env) (ftract : String) (Nx Ny Nz : ℕ) : RunResult :=
  if dimCheckFails Nx Ny Nz then
    { trace := [], error := some RunError.dimOverflow, generated := false,
      usedTractogram := some ftract, filtered := none }
  else
    match c.filename_mask with
    | some m =>
      match env.nii m with
      | none =>
        { trace := [Event.loadNii m], error := some RunError.fileNotFound,
          generated := false, usedTractogram := some ftract, filtered := none }
      | some _ => runPeaks c env ftract [Event.loadNii m, Event.loadNiiData m]
    | none => runPeaks c env ftract []
where
  /-- Lines 316-354: the peaks block. `nibabel.load` of the peaks file
  (line 326) precedes the `3*k` check (line 336) and the `vf_THR` check
  (line 338), which precede the full data read (line 340). -/
  runPeaks (c : RunConfig) (env : Env) (ftract : String) (evM : List Event) : RunResult :=
    match c.filename_peaks with
    | none => runOut c env ftract evM
    | some p =>
      match env.nii p with
      | none =>
        { trace := evM ++ [Event.loadNii p], error := some RunError.fileNotFound,
          generated := false, usedTractogram := some ftract, filtered := none }
      | some ph =>
        if ph.shape4 % 3 ≠ 0 then
          { trace := evM ++ [Event.loadNii p], error := some RunError.peaksBad3,
            generated := false, usedTractogram := some ftract, filtered := none }
        else if c.vf_THR < 0 ∨ c.vf_THR > 1 then
          { trace := evM ++ [Event.loadNii p], error := some RunError.vfThrRange,
            generated := false, usedTractogram := some ftract, filtered := none }
        else
          runOut c env ftract (evM ++ [Event.loadNii p, Event.loadNiiData p])

/-- Lines 218-277: the extension check, the tractogram header load, and
the geometry resolution (from the `.trk` header, or from a reference
NIfTI image for `.tck` — preferring `TCK_ref_image`, then
`filename_peaks`, then `filename_mask`, lines 243-249). -/
def runLoad (c : RunConfig) (env : Env) (ftract : String) : RunResult :=
  let ext := extensionOf ftract
  if ext ≠ ".trk" ∧ ext ≠ ".tck" then
    { trace := [], error := some RunError.invalidExtension, generated := false,
      usedTractogram := some ftract, filtered := none }
  else
    match env.tract ftract with
    | none =>
      { trace := [Event.loadTractHeader], error := some RunError.tractNotFound,
        generated := false, usedTractogram := some ftract, filtered := none }
    | some hdr =>
      if ext = ".trk" then
        prependEvents [Event.loadTractHeader]
          (runPost c env ftract hdr.dimx hdr.dimy hdr.dimz)
      else
        match (match c.TCK_ref_image with
               | some r => some r
               | none =>
                 match c.filename_peaks with
                 | some r => some r
                 | none => c.filename_mask) with
        | none =>
          { trace := [Event.loadTractHeader], error := some RunError.noGeometry,
            generated := false, usedTractogram := some ftract, filtered := none }
        | some ref =>
          match env.nii ref with
          | none =>
            { trace := [Event.loadTractHeader, Event.loadNii ref],
              error := some RunError.fileNotFound, generated := false,
              usedTractogram := some ftract, filtered := none }
          | some rh =>
            prependEvents [Event.loadTractHeader, Event.loadNii ref]
              (runPost c env ftract rh.shape1 rh.shape2 rh.shape3)

/-- `run` (lines 26-408).  Statement order of the source:
`filename = path_out + '/dictionary_info.pickle'` (line 101, a `TypeError`
crash when `path_out` is `None`), the `ndirs` check (line 121), the
`fiber_shift` check (lines 125-134), the blur-list length check
(line 157), the `min_seg_len` check (line 193), the hash-table load
(line 199, the first file I/O), the tractogram-parameter checks
(lines 205-216), then loading and conversion. -/
def run (c : RunConfig) (env : Env) : RunResult :=
  match c.path_out with
  | none =>
    { trace := [], error := some RunError.typeError, generated := false,
      usedTractogram := none, filtered := none }
  | some _ =>
    if is_valid c.ndirs = false then
      { trace := [], error := some RunError.invalidNdirs, generated := false,
        usedTractogram := none, filtered := none }
    else if fiberShiftBad c.fiber_shift then
      { trace := [], error := some RunError.badFiberShift, generated := false,
        usedTractogram := none, filtered := none }
    else if c.blur_radii.length ≠ c.blur_samples.length then
      { trace := [], error := some RunError.blurMismatch, generated := false,
        usedTractogram := none, filtered := none }
    else if c.min_seg_len < 0 then
      { trace := [], error := some RunError.negMinSegLen, generated := false,
        usedTractogram := none, filtered := none }
    else
      match resolveTract c.filename_tractogram c.filename_trk with
      | none =>
        { trace := [Event.loadHashTable], error := some RunError.tractogramMissing,
          generated := false, usedTractogram := none, filtered := none }
      | some ftract => prependEvents [Event.loadHashTable] (runLoad c env ftract)

/-! ## Blur expander configuration (lines 160-168)

The code prepends a fake radius 0 with sample count 1 for the original
segment, and computes the Gaussian damping weight
`exp(-r^2 / (2*sigma^2))` per radius.  The weights are real-valued. -/

/-- `np.array([0.0] + blur_radii)` (line 162). -/
def blurRadiiArr (blur_radii : List ℝ) : List ℝ :=
  0 :: blur_radii

/-- `np.array([1] + blur_samples)` (line 163). -/
def blurSamplesArr (blur_samples : List ℕ) : List ℕ :=
  1 :: blur_samples

/-- `np.exp(-r**2 / (2.0*blur_sigma**2))` (line 168). -/
noncomputable def blurWeight (sigma r : ℝ) : ℝ :=
  Real.exp (-r ^ 2 / (2 * sigma ^ 2))

/-- The weight array of lines 166-168: one weight per entry of
`blurRadiiArr`. -/
noncomputable def blurWeightsArr (sigma : ℝ) (blur_radii : List ℝ) : List ℝ :=
  (blurRadiiArr blur_radii).map (blurWeight sigma)

/-! ## Spec-side characterisation of the filtered tractogram (claim C8) -/

/-- The indices whose kept flag is `true`, in increasing order.  This
follows the spec's words ("exactly the streamlines whose per-streamline
kept flag is true, in their original order"), to be compared with the
code-side `maskSelect`. -/
def keptIndices (kept : List Bool) : List ℕ :=
  (List.range kept.length).filter (fun i => kept.getD i false)

/-- Spec-side filtered streamline list: the streamlines at the kept
indices, in index order. -/
def specFiltered {α : Type} (xs : List α) (kept : List Bool) : List α :=
  (keptIndices kept).filterMap (fun i => xs.get? i)

/-! ## Baseline configuration and environment

A fully valid `.trk` configuration used to instantiate the claims about
`run`; individual claims vary the fields they are about. -/

def baseHdr : TractHeader :=
  { dimx := 10, dimy := 10, dimz := 10, px := 2, py := 2, pz := 2,
    nb_streamlines := 2, nb_scalars := 0, nb_properties := 0,
    offset_data := 1000, count := 2 }

/-- Baseline environment parametrised by the bits individual claims vary:
whether the output directory pre-exists, the native call's outcome, and
the kept-flags file contents.  It serves a `.trk` tractogram
`fibers.trk`, a `.tck` tractogram `fibers.tck`, a reference NIfTI
`ref.nii` whose second dimension is `refDim2`, and a peaks NIfTI
`peaks.nii` whose fourth dimension is `s4`. -/
def envOf (outDirExists convResult : Bool) (keptFlags : List Bool)
    (streams : List ℕ) (refDim2 s4 : ℕ) : Env :=
  { tract := fun s =>
      if s = "fibers.trk" ∨ s = "fibers.tck" then some baseHdr else none,
    nii := fun s =>
      if s = "ref.nii" then
        some { shape1 := 10, shape2 := refDim2, shape3 := 10, shape4 := 1,
               pixdim1 := 2, pixdim2 := 2, pixdim3 := 2 }
      else if s = "peaks.nii" then
        some { shape1 := 10, shape2 := 10, shape3 := 10, shape4 := s4,
               pixdim1 := 2, pixdim2 := 2, pixdim3 := 2 }
      else none,
    outDirExists := outDirExists,
    convResult := convResult,
    keptFlags := keptFlags,
    streamlines := fun s => if s = "fibers.trk" then streams else [] }

def baseEnv : Env := envOf false true [true, false] [7, 8] 10 6

/-- Baseline configuration parametrised by the fields individual claims
vary; all other parameters are valid defaults. -/
def cfgOf (filename_tractogram filename_trk filename_peaks TCK_ref_image path_out : Option String)
    (vf_THR : ℚ) (gen_trk : Bool) (ndirs : ℕ) : RunConfig :=
  { filename_tractogram := filename_tractogram,
    path_out := path_out,
    filename_peaks := filename_peaks,
    filename_mask := none,
    do_intersect := true,
    fiber_shift := FiberShift.scalar 0,
    points_to_skip := 0,
    vf_THR := vf_THR,
    peaks_use_affine := false,
    flip_peaks := (false, false, false),
    min_seg_len := 0,
    gen_trk := gen_trk,
    blur_radii := [],
    blur_samples := [],
    blur_sigma := 1,
    filename_trk := filename_trk,
    TCK_ref_image := TCK_ref_image,
    ndirs := ndirs }

def baseCfg : RunConfig :=
  cfgOf (some "fibers.trk") none none none (some "out") 0 true 32761

/-- Baseline configuration with a peaks volume and threshold `vf`. -/
def peaksCfg (vf : ℚ) : RunConfig :=
  cfgOf (some "fibers.trk") none (some "peaks.nii") none (some "out") vf true 32761

/-- Environment with a peaks volume `peaks.nii` whose fourth dimension is
`s4`, alongside the baseline tractogram. -/
def peaksEnv (s4 : ℕ) : Env := envOf false true [true, false] [7, 8] 10 s4

/-- Events that constitute the expensive work of a run: creating the
output directory and its files, the native conversion pass, and the
post-conversion full tractogram load.  Input-validation reads (headers,
the hash table, the mask/peaks data arrays) are setup, not the expensive
dictionary-building work. -/
def expensiveEvent : Event → Bool
  | Event.makedirs => true
  | Event.writeInfoPickle => true
  | Event.convPass => true
  | Event.loadTractData => true
  | Event.readKeptFile => true
  | Event.writeFilteredTract => true
  | Event.writeTDI => true
  | Event.writeMaskImage => true
  | _ => false

/-- Events that write one of the final dictionary output files. -/
def finalOutputEvent : Event → Bool
  | Event.writeFilteredTract => true
  | Event.writeTDI => true
  | Event.writeMaskImage => true
  | _ => false

/-! ## Helper lemmas -/

/-- Positional uniqueness of a mixed-radix digit pair: if `a, c < n` then
`a + n*b = c + n*d` forces `a = c` and `b = d`. -/
theorem addMulInj {n a b c d : ℕ} (ha : a < n) (hc : c < n)
    (h : a + n * b = c + n * d) : a = c ∧ b = d := by
  have hn : 0 < n := lt_of_le_of_lt (Nat.zero_le a) ha
  have hac : a = c := by
    have h1 := congrArg (fun t => t % n) h
    simpa [Nat.add_mul_mod_self_left, Nat.mod_eq_of_lt ha, Nat.mod_eq_of_lt hc] using h1
  subst hac
  have hbd : n * b = n * d := by omega
  exact ⟨rfl, Nat.eq_of_mul_eq_mul_left hn hbd⟩

/-- The raw (pre-truncation) voxel code is bounded by the voxel count. -/
theorem encodePure_lt {Nx Ny Nz x y z : ℕ} (hx : x < Nx) (hy : y < Ny)
    (hz : z < Nz) : x + Nx * (y + Ny * z) < Nx * Ny * Nz := by
  have h1 : y + Ny * z < Ny * Nz := by
    calc y + Ny * z < Ny + Ny * z := by omega
    _ = Ny * (z + 1) := by ring
    _ ≤ Ny * Nz := Nat.mul_le_mul_left _ hz
  calc x + Nx * (y + Ny * z) < Nx + Nx * (y + Ny * z) := by omega
  _ = Nx * (y + Ny * z + 1) := by ring
  _ ≤ Nx * (Ny * Nz) := Nat.mul_le_mul_left _ h1
  _ = Nx * Ny * Nz := by ring

/-! ## Claim C1 -/

/-- Claim C1, counterexample.  On the grid `Nx = Ny = 65535`, `Nz = 2`
(all three extents below `2^16`, so accepted by the 16-bit bound), the
voxel encoding computed by the migration — a numpy `uint32` stream, i.e.
`(x + Nx*(y + Ny*z)) mod 2^32` — maps the two distinct in-range triples
`(0,0,0)` and `(1,2,1)` to the same code `0`, so the encoding as
implemented is not injective over all grids with each extent in
`[0, 2^16)` and decoding cannot recover the original triple. -/
theorem voxel_encoding_u32_collision :
    (0 < 65535 ∧ 0 < 65535 ∧ 0 < 2) ∧
    (1 < 65535 ∧ 2 < 65535 ∧ 1 < 2) ∧
    ((0, 0, 0) : ℕ × ℕ × ℕ) ≠ (1, 2, 1) ∧
    encodeVoxelU32 65535 65535 0 0 0 = encodeVoxelU32 65535 65535 1 2 1 := by
  refine ⟨by decide, by decide, by decide, ?_⟩
  decide

/-- Claim C1 (amended): whenever the total voxel count `Nx*Ny*Nz` fits the
32-bit output stream (`Nx*Ny*Nz ≤ 2^32` — in particular for every
realistic grid), the migration's voxel encoding
`v = x + Nx*(y + Ny*z)` is injective on `x < Nx`, `y < Ny`, `z < Nz`, so
decoding recovers the original `(x, y, z)` uniquely; and the orientation
encoding is exactly `oy + 181*ox` on the legacy 8-bit fields (no 16-bit
truncation occurs), injective whenever `oy < 181`. -/
theorem migration_encoding_roundtrip :
    (∀ Nx Ny Nz x₁ y₁ z₁ x₂ y₂ z₂ : ℕ,
      x₁ < Nx → y₁ < Ny → z₁ < Nz → x₂ < Nx → y₂ < Ny → z₂ < Nz →
      Nx * Ny * Nz ≤ 2 ^ 32 →
      encodeVoxelU32 Nx Ny x₁ y₁ z₁ = encodeVoxelU32 Nx Ny x₂ y₂ z₂ →
      x₁ = x₂ ∧ y₁ = y₂ ∧ z₁ = z₂) ∧
    (∀ ox oy : ℕ, ox < 2 ^ 8 → oy < 2 ^ 8 →
      encodeOrientU16 ox oy = oy + 181 * ox) ∧
    (∀ ox₁ oy₁ ox₂ oy₂ : ℕ, ox₁ < 2 ^ 8 → ox₂ < 2 ^ 8 →
      oy₁ < 181 → oy₂ < 181 →
      encodeOrientU16 ox₁ oy₁ = encodeOrientU16 ox₂ oy₂ →
      ox₁ = ox₂ ∧ oy₁ = oy₂) := by
  refine ⟨?_, ?_, ?_⟩
  · intro Nx Ny Nz x₁ y₁ z₁ x₂ y₂ z₂ hx₁ hy₁ hz₁ hx₂ hy₂ hz₂ hfit henc
    have hlt₁ : x₁ + Nx * (y₁ + Ny * z₁) < 2 ^ 32 :=
      lt_of_lt_of_le (encodePure_lt hx₁ hy₁ hz₁) hfit
    have hlt₂ : x₂ + Nx * (y₂ + Ny * z₂) < 2 ^ 32 :=
      lt_of_lt_of_le (encodePure_lt hx₂ hy₂ hz₂) hfit
    rw [encodeVoxelU32, encodeVoxelU32, Nat.mod_eq_of_lt hlt₁,
      Nat.mod_eq_of_lt hlt₂] at henc
    obtain ⟨hx, hrest⟩ := addMulInj hx₁ hx₂ henc
    obtain ⟨hy, hz⟩ := addMulInj hy₁ hy₂ hrest
    exact ⟨hx, hy, hz⟩
  · intro ox oy hox hoy
    rw [encodeOrientU16]
    exact Nat.mod_eq_of_lt (by omega)
  · intro ox₁ oy₁ ox₂ oy₂ hox₁ hox₂ hoy₁ hoy₂ henc
    rw [encodeOrientU16, encodeOrientU16,
      Nat.mod_eq_of_lt (by omega), Nat.mod_eq_of_lt (by omega)] at henc
    obtain ⟨hy, hx⟩ := addMulInj hoy₁ hoy₂ henc
    exact ⟨hx, hy⟩

/-- Claim C1, witness: the amended theorem applied at the concrete grid
`4 × 3 × 2` to the codes of `(1, 2, 1)` and at the concrete orientation
fields `ox = 3`, `oy = 5`. -/
theorem migration_encoding_roundtrip_witness :
    ((1 < 4 ∧ 2 < 3 ∧ 1 < 2 ∧ 4 * 3 * 2 ≤ 2 ^ 32) ∧
      ((1 : ℕ) = 1 ∧ (2 : ℕ) = 2 ∧ (1 : ℕ) = 1)) ∧
    ((3 < 2 ^ 8 ∧ 5 < 2 ^ 8) ∧ encodeOrientU16 3 5 = 5 + 181 * 3) :=
  ⟨⟨⟨by decide, by decide, by decide, by decide⟩,
    migration_encoding_roundtrip.1 4 3 2 1 2 1 1 2 1 (by decide) (by decide)
      (by decide) (by decide) (by decide) (by decide) (by decide) rfl⟩,
   ⟨⟨by decide, by decide⟩,
    migration_encoding_roundtrip.2.1 3 5 (by decide) (by decide)⟩⟩

/-! ## Claim C2 -/

/-- Claim C2: the grid-extent check on line 279 reads
`if Nx >= 2**16 or Nz >= 2**16 or Nz >= 2**16` — it tests `Nz` twice and
never tests `Ny`.  Consequently a resolved extent `(10, 65536, 10)` whose
`Ny` does not fit the 16-bit voxel-index encoding passes the check, and a
full run over a `.tck` tractogram with a reference image of that shape
completes without a geometry-overflow error, contradicting the claim.
(`Nx` or `Nz` out of range are caught, confirming the check's intent.) -/
theorem dim_check_misses_Ny :
    dimCheckFails 10 65536 10 = false ∧
    (∀ Nx Nz y₁ y₂ : ℕ, dimCheckFails Nx y₁ Nz = dimCheckFails Nx y₂ Nz) ∧
    dimCheckFails 65536 10 10 = true ∧
    dimCheckFails 10 10 65536 = true ∧
    (run (cfgOf (some "fibers.tck") none none (some "ref.nii") (some "out") 0 true 32761)
        (envOf false true [true, false] [7, 8] 65536 6)).error = none ∧
    (run (cfgOf (some "fibers.tck") none none (some "ref.nii") (some "out") 0 true 32761)
        (envOf false true [true, false] [7, 8] 65536 6)).generated = true :=
  ⟨by decide, fun _ _ _ _ => rfl, by decide, by decide, by rfl, by rfl⟩

/-! ## Claim C3 -/

/-- Claim C3: with every other parameter valid, `run` raises the
invalid-`ndirs` configuration error exactly when `ndirs` is outside the
supported set `{500, 1000, ..., 10000 step 500, 32761}`, and when it does
so the event trace is empty — in particular no file I/O has happened.
`ndirs = 500` is accepted and `ndirs = 501` is rejected. -/
theorem ndirs_validated_before_io (n : ℕ) :
    ((run (cfgOf (some "fibers.trk") none none none (some "out") 0 true n) baseEnv).error
        = some RunError.invalidNdirs ↔ is_valid n = false) ∧
    (is_valid n = false →
      (run (cfgOf (some "fibers.trk") none none none (some "out") 0 true n) baseEnv).trace = []) ∧
    is_valid 500 = true ∧ is_valid 501 = false := by
  by_cases h : is_valid n = true
  · have e : run (cfgOf (some "fibers.trk") none none none (some "out") 0 true n) baseEnv =
        run baseCfg baseEnv := by
      unfold run
      rw [show (cfgOf (some "fibers.trk") none none none (some "out") 0 true n).ndirs = n from rfl, h]
      rfl
    have herr : (run baseCfg baseEnv).error = none := by rfl
    rw [e]
    exact ⟨by simp [herr, h], fun hf => by simp [h] at hf, by decide, by decide⟩
  · have hf : is_valid n = false := by revert h; cases is_valid n <;> simp
    have e : run (cfgOf (some "fibers.trk") none none none (some "out") 0 true n) baseEnv =
        { trace := [], error := some RunError.invalidNdirs, generated := false,
          usedTractogram := none, filtered := none } := by
      unfold run
      rw [show (cfgOf (some "fibers.trk") none none none (some "out") 0 true n).ndirs = n from rfl, hf]
      rfl
    rw [e]
    exact ⟨by simp [hf], fun _ => rfl, by decide, by decide⟩

/-- Claim C3, witness: at `ndirs = 501` the run raises the invalid-`ndirs`
error with an empty trace. -/
theorem ndirs_validated_before_io_witness :
    is_valid 501 = false ∧
    (run (cfgOf (some "fibers.trk") none none none (some "out") 0 true 501) baseEnv).error
      = some RunError.invalidNdirs ∧
    (run (cfgOf (some "fibers.trk") none none none (some "out") 0 true 501) baseEnv).trace = [] :=
  ⟨by decide, (ndirs_validated_before_io 501).1.mpr (by decide),
    (ndirs_validated_before_io 501).2.1 (by decide)⟩

/-! ## Claim C4 -/

/-- Claim C4: the blur-weight array computed on lines 160-168 assigns
weight `exp(-r^2 / (2*sigma^2))` to the entry for radius `r`, the
implicit radius-0 entry always gets weight `1` and sample count `1`, and
with `blur_radii = []` the three arrays are exactly `[0]`, `[1]`, `[1]`:
the single radius-0 copy with weight `1` (identity pass-through). -/
theorem blur_weights_gaussian (sigma : ℝ) (radii : List ℝ) (samples : List ℕ) :
    (blurWeightsArr sigma radii).get? 0 = some 1 ∧
    (blurSamplesArr samples).get? 0 = some 1 ∧
    (∀ i r, radii.get? i = some r →
      (blurWeightsArr sigma radii).get? (i + 1) =
        some (Real.exp (-r ^ 2 / (2 * sigma ^ 2)))) ∧
    blurRadiiArr [] = [0] ∧ blurSamplesArr [] = [1] ∧
    blurWeightsArr sigma [] = [1] := by
  refine ⟨?_, rfl, ?_, rfl, rfl, ?_⟩
  · simp [blurWeightsArr, blurRadiiArr, blurWeight]
  · intro i r h
    rw [List.get?_eq_getElem?] at h
    simp [blurWeightsArr, blurRadiiArr, blurWeight, List.get?_eq_getElem?,
      List.getElem?_map, h]
  · simp [blurWeightsArr, blurRadiiArr, blurWeight]

/-- Claim C4, witness: with `blur_radii = [2]` and `sigma = 1` the entry
after the radius-0 one carries weight `exp(-2^2 / (2*1^2))`. -/
theorem blur_weights_gaussian_witness :
    ([(2 : ℝ)].get? 0 = some 2) ∧
    (blurWeightsArr 1 [2]).get? 1 = some (Real.exp (-(2 : ℝ) ^ 2 / (2 * 1 ^ 2))) :=
  ⟨rfl, (blur_weights_gaussian 1 [2] []).2.2.1 0 2 rfl⟩

/-! ## Claim C5 -/

/-- Claim C5: with a peaks volume configured (and every other parameter
valid), `run` raises the `3*k`-volumes configuration error whenever the
peaks volume's last dimension is not a multiple of 3, and the `vf_THR`
range error whenever `vf_THR` lies outside `[0, 1]`; in both cases the
trace up to the error contains no expensive work — no output-directory
creation, no metadata or dictionary file writes, and no conversion
pass. -/
theorem peaks_config_checks (vf : ℚ) (s4 : ℕ) :
    (s4 % 3 ≠ 0 →
      (run (peaksCfg vf) (peaksEnv s4)).error = some RunError.peaksBad3 ∧
      ((run (peaksCfg vf) (peaksEnv s4)).trace.all fun e => !expensiveEvent e) = true) ∧
    (s4 % 3 = 0 → vf < 0 ∨ vf > 1 →
      (run (peaksCfg vf) (peaksEnv s4)).error = some RunError.vfThrRange ∧
      ((run (peaksCfg vf) (peaksEnv s4)).trace.all fun e => !expensiveEvent e) = true) := by
  have e : run (peaksCfg vf) (peaksEnv s4) =
      prependEvents [Event.loadHashTable] (prependEvents [Event.loadTractHeader]
        (if s4 % 3 ≠ 0 then
          { trace := [] ++ [Event.loadNii "peaks.nii"],
            error := some RunError.peaksBad3, generated := false,
            usedTractogram := some "fibers.trk", filtered := none }
        else if vf < 0 ∨ vf > 1 then
          { trace := [] ++ [Event.loadNii "peaks.nii"],
            error := some RunError.vfThrRange, generated := false,
            usedTractogram := some "fibers.trk", filtered := none }
        else runOut (peaksCfg vf) (peaksEnv s4) "fibers.trk"
          ([] ++ [Event.loadNii "peaks.nii", Event.loadNiiData "peaks.nii"]))) := rfl
  by_cases h3 : s4 % 3 = 0
  · refine ⟨fun hne => absurd h3 hne, fun _ hvf => ?_⟩
    rw [e, if_neg (not_not_intro h3), if_pos hvf]
    exact ⟨rfl, by decide⟩
  · refine ⟨fun _ => ?_, fun h' _ => absurd h' h3⟩
    rw [e, if_pos h3]
    exact ⟨rfl, by decide⟩

/-- Claim C5, witness: a peaks volume with last dimension 4 (not a
multiple of 3) is rejected with no expensive work in the trace. -/
theorem peaks_config_checks_witness :
    (4 % 3 ≠ 0) ∧
    (run (peaksCfg 0) (peaksEnv 4)).error = some RunError.peaksBad3 ∧
    ((run (peaksCfg 0) (peaksEnv 4)).trace.all fun e => !expensiveEvent e) = true :=
  ⟨by decide, ((peaks_config_checks 0 4).1 (by decide)).1,
    ((peaks_config_checks 0 4).1 (by decide)).2⟩

/-! ## Claim C6 -/

/-- Claim C6: with `path_out = None`, line 101
(`filename = path_out + '/dictionary_info.pickle'`) raises a `TypeError`
before any check runs — an incidental crash, not the structured
`RuntimeError('Path out not defined')` of line 206, which is unreachable
for this input.  With a missing tractogram filename (both
`filename_tractogram` and `filename_trk` absent), the structured
`RuntimeError('Tractogram file not defined')` is raised before any
conversion work (the only prior I/O is the hash-table load). -/
theorem missing_path_arguments :
    run (cfgOf (some "fibers.trk") none none none none 0 true 32761) baseEnv =
      { trace := [], error := some RunError.typeError, generated := false,
        usedTractogram := none, filtered := none } ∧
    run (cfgOf none none none none (some "out") 0 true 32761) baseEnv =
      { trace := [Event.loadHashTable], error := some RunError.tractogramMissing,
        generated := false, usedTractogram := none, filtered := none } :=
  ⟨rfl, rfl⟩

/-! ## Claim C7 -/

/-- A step after the IC voxel stage never touches `dictionary_IC_vx.dict`. -/
theorem convStepECv_IC_vx (s : ConvState) :
    ((convStepECv s).1).IC_vx = (s.1).IC_vx := by
  unfold convStepECv
  repeat' first | rfl | split

theorem convStepICo_IC_vx (s : ConvState) :
    ((convStepICo s).1).IC_vx = (s.1).IC_vx := by
  unfold convStepICo
  repeat' first | rfl | split

theorem convStepECo_IC_vx (s : ConvState) :
    ((convStepECo s).1).IC_vx = (s.1).IC_vx := by
  unfold convStepECo
  repeat' first | rfl | split

/-- A raised error propagates through the remaining stages without
touching the directory (the Python exception aborts the function). -/
theorem convSteps_err (d : DictDir) (e : ConvErr) :
    convStepECo (convStepICo (convStepECv (d, some e))) = (d, some e) := rfl

/-- Line 421-422: when `dictionary_IC_vx.dict` is absent the migration
raises the structured not-found error and leaves the directory
untouched. -/
theorem conv_of_IC_vx_none {d : DictDir} (h : d.IC_vx = none) :
    convert_old_dictionary d = (d, some ConvErr.legacyMissing) := by
  unfold convert_old_dictionary
  rw [show convStepICv (d, none) = (d, some ConvErr.legacyMissing) from
    by simp [convStepICv, h]]
  rfl

/-- The IC voxel stage either succeeds with `dictionary_IC_vx.dict`
removed, or raises leaving the directory untouched. -/
theorem convICv_cases (d : DictDir) :
    ((convStepICv (d, none)).2 = none ∧ ((convStepICv (d, none)).1).IC_vx = none) ∨
    (∃ e, convStepICv (d, none) = (d, some e)) := by
  rcases hvx : d.IC_vx with _ | xs
  · exact Or.inr ⟨ConvErr.legacyMissing, by simp [convStepICv, hvx]⟩
  · rcases htdi : d.tdi with _ | ⟨⟨Nx, Ny, Nz⟩⟩
    · exact Or.inr ⟨ConvErr.readFailed, by simp [convStepICv, hvx, htdi]⟩
    · rcases hvy : d.IC_vy with _ | ys
      · exact Or.inr ⟨ConvErr.readFailed, by simp [convStepICv, hvx, htdi, hvy]⟩
      · rcases hvz : d.IC_vz with _ | zs
        · exact Or.inr ⟨ConvErr.readFailed, by simp [convStepICv, hvx, htdi, hvy, hvz]⟩
        · exact Or.inl (by simp [convStepICv, hvx, htdi, hvy, hvz])

/-- After one migration attempt, either `dictionary_IC_vx.dict` is gone
(progress was made past the IC stage) or the directory is unchanged. -/
theorem conv_IC_vx_cases (d : DictDir) :
    ((convert_old_dictionary d).1).IC_vx = none ∨ (convert_old_dictionary d).1 = d := by
  rcases convICv_cases d with ⟨_, h1⟩ | ⟨e, he⟩
  · left
    unfold convert_old_dictionary
    rw [convStepECo_IC_vx, convStepICo_IC_vx, convStepECv_IC_vx]
    exact h1
  · right
    unfold convert_old_dictionary
    rw [he, convSteps_err]

/-- Claim C7: (i) when `dictionary_IC_vx.dict` is absent — in particular
when all legacy files are absent — `convert_old_dictionary` fails with
the structured not-found error and changes nothing; (ii) on a directory
holding the full legacy layout (and the TDI image both layouts share, from
which the grid shape is read) it succeeds, writes the four merged
single-stream files with the encoded contents, and removes all ten legacy
files; (iii) the induced directory transformation is idempotent: applying
the migration to the directory state left by a previous application —
successful or failed — never changes that state again. -/
theorem convert_old_dictionary_contract (d : DictDir) :
    (d.IC_vx = none → convert_old_dictionary d = (d, some ConvErr.legacyMissing)) ∧
    (∀ Nx Ny Nz xs ys zs exs eys ezs oxs oys eoxs eoys,
      d.tdi = some (Nx, Ny, Nz) →
      d.IC_vx = some xs → d.IC_vy = some ys → d.IC_vz = some zs →
      d.EC_vx = some exs → d.EC_vy = some eys → d.EC_vz = some ezs →
      d.IC_ox = some oxs → d.IC_oy = some oys →
      d.EC_ox = some eoxs → d.EC_oy = some eoys →
      (convert_old_dictionary d).2 = none ∧
      noLegacyFiles (convert_old_dictionary d).1 = true ∧
      (convert_old_dictionary d).1.IC_v = some (encodeVoxStream Nx Ny xs ys zs) ∧
      (convert_old_dictionary d).1.EC_v = some (encodeVoxStream Nx Ny exs eys ezs) ∧
      (convert_old_dictionary d).1.IC_o = some (encodeOrientStream oxs oys) ∧
      (convert_old_dictionary d).1.EC_o = some (encodeOrientStream eoxs eoys)) ∧
    (convert_old_dictionary (convert_old_dictionary d).1).1 =
      (convert_old_dictionary d).1 := by
  refine ⟨fun h => conv_of_IC_vx_none h, ?_, ?_⟩
  · intro Nx Ny Nz xs ys zs exs eys ezs oxs oys eoxs eoys
      htdi hvx hvy hvz hex hey hez hox hoy heox heoy
    simp [convert_old_dictionary, convStepICv, convStepECv, convStepICo, convStepECo,
      noLegacyFiles, htdi, hvx, hvy, hvz, hex, hey, hez, hox, hoy, heox, heoy]
  · rcases conv_IC_vx_cases d with h | h
    · rw [conv_of_IC_vx_none h]
    · rw [h, h]

/-- A concrete directory in the full legacy layout. -/
def legacyDirExample : DictDir :=
  { tdi := some (3, 3, 3),
    IC_vx := some [1, 2], IC_vy := some [0, 1], IC_vz := some [2, 0],
    EC_vx := some [1], EC_vy := some [1], EC_vz := some [0],
    IC_ox := some [2, 3], IC_oy := some [5, 7],
    EC_ox := some [4], EC_oy := some [9],
    IC_v := none, EC_v := none, IC_o := none, EC_o := none }

/-- Claim C7, witness: migrating a concrete legacy-layout directory
succeeds, removes the legacy files and writes the merged streams. -/
theorem convert_old_dictionary_contract_witness :
    (legacyDirExample.tdi = some (3, 3, 3) ∧ legacyDirExample.IC_vx = some [1, 2]) ∧
    ((convert_old_dictionary legacyDirExample).2 = none ∧
      noLegacyFiles (convert_old_dictionary legacyDirExample).1 = true ∧
      (convert_old_dictionary legacyDirExample).1.IC_v =
        some (encodeVoxStream 3 3 [1, 2] [0, 1] [2, 0]) ∧
      (convert_old_dictionary legacyDirExample).1.EC_v =
        some (encodeVoxStream 3 3 [1] [1] [0]) ∧
      (convert_old_dictionary legacyDirExample).1.IC_o =
        some (encodeOrientStream [2, 3] [5, 7]) ∧
      (convert_old_dictionary legacyDirExample).1.EC_o =
        some (encodeOrientStream [4] [9])) :=
  ⟨⟨rfl, rfl⟩,
    (convert_old_dictionary_contract legacyDirExample).2.1 3 3 3
      [1, 2] [0, 1] [2, 0] [1] [1] [0] [2, 3] [5, 7] [4] [9]
      rfl rfl rfl rfl rfl rfl rfl rfl rfl rfl rfl⟩

/-! ## Claim C8 -/

theorem maskSelect_cons {α : Type} (a : α) (xs : List α) (b : Bool) (ks : List Bool) :
    maskSelect (a :: xs) (b :: ks) =
      (if b then [a] else []) ++ maskSelect xs ks := by
  cases b <;> simp [maskSelect]

theorem specFiltered_cons {α : Type} (a : α) (xs : List α) (b : Bool) (ks : List Bool) :
    specFiltered (a :: xs) (b :: ks) =
      (if b then [a] else []) ++ specFiltered xs ks := by
  simp only [specFiltered, keptIndices, List.length_cons, List.range_succ_eq_map,
    List.filter_cons, List.getD_cons_zero, List.filter_map, List.filterMap_append,
    List.filterMap_map, Function.comp]
  cases b <;> simp [Function.comp_def]

/-- numpy boolean-mask selection keeps exactly the elements at the
`true`-flagged indices, in their original order, and its length is the
number of `true` flags. -/
theorem maskSelect_spec {α : Type} (xs : List α) (kept : List Bool)
    (hlen : kept.length = xs.length) :
    maskSelect xs kept = specFiltered xs kept ∧
    (maskSelect xs kept).length = kept.count true := by
  induction xs generalizing kept with
  | nil =>
    have h : kept = [] := List.eq_nil_of_length_eq_zero (by simpa using hlen)
    subst h
    exact ⟨rfl, rfl⟩
  | cons a xs ih =>
    cases kept with
    | nil => simp at hlen
    | cons b ks =>
      have h' : ks.length = xs.length := by simpa using hlen
      obtain ⟨ih1, ih2⟩ := ih ks h'
      refine ⟨by rw [maskSelect_cons, specFiltered_cons, ih1], ?_⟩
      rw [maskSelect_cons]
      cases b <;> simp [List.count_cons, ih2]

/-- Claim C8: a successful run with `gen_trk` writes a filtered
streamline file containing exactly the streamlines whose kept flag
(`dictionary_TRK_kept.dict`) is `true`, in their original order (the
spec-side `specFiltered` selection), and sets the header streamline
count to the number of kept streamlines. -/
theorem filtered_tractogram_matches_kept (strs : List ℕ) (ks : List Bool)
    (hlen : ks.length = strs.length) :
    (run (cfgOf (some "fibers.trk") none none none (some "out") 0 true 32761)
        (envOf false true ks strs 10 6)).filtered =
      some (maskSelect strs ks, (maskSelect strs ks).length) ∧
    maskSelect strs ks = specFiltered strs ks ∧
    (maskSelect strs ks).length = ks.count true :=
  ⟨rfl, (maskSelect_spec strs ks hlen).1, (maskSelect_spec strs ks hlen).2⟩

/-- Claim C8, witness: two streamlines with kept flags `[true, false]`
produce a filtered file holding exactly the first streamline with
header count 1. -/
theorem filtered_tractogram_matches_kept_witness :
    ([true, false].length = [7, 8].length) ∧
    (run (cfgOf (some "fibers.trk") none none none (some "out") 0 true 32761)
        (envOf false true [true, false] [7, 8] 10 6)).filtered =
      some (maskSelect [7, 8] [true, false], (maskSelect [7, 8] [true, false]).length) ∧
    maskSelect [7, 8] [true, false] = specFiltered [7, 8] [true, false] ∧
    (maskSelect [7, 8] [true, false]).length = [true, false].count true :=
  ⟨rfl, (filtered_tractogram_matches_kept [7, 8] [true, false] rfl).1,
    (filtered_tractogram_matches_kept [7, 8] [true, false] rfl).2.1,
    (filtered_tractogram_matches_kept [7, 8] [true, false] rfl).2.2⟩

/-! ## Claim C9 -/

/-- Claim C9, counterexample: when the native conversion pass fails
(`ret == 0`, line 372) the run returns without raising, after having
already written the metadata record `dictionary_info.pickle`
(lines 362-363, before the conversion call); the trace ends at the
conversion pass, so nothing removes or marks the metadata record — it
persists from the failed run, contradicting the claim that no metadata
record persists. -/
theorem metadata_persists_after_failed_run :
    (run baseCfg (envOf false false [true, false] [7, 8] 10 6)).generated = false ∧
    (run baseCfg (envOf false false [true, false] [7, 8] 10 6)).error = none ∧
    Event.writeInfoPickle ∈ (run baseCfg (envOf false false [true, false] [7, 8] 10 6)).trace ∧
    (run baseCfg (envOf false false [true, false] [7, 8] 10 6)).trace.getLast? =
      some Event.convPass :=
  ⟨rfl, rfl, by decide, rfl⟩

/-- Claim C9 (amended): when the conversion pass fails, the run stops
before writing any of the final output files (TDI image, mask image,
filtered tractogram) — but the metadata record `dictionary_info.pickle`
has already been written before the pass and persists, unmarked and
unremoved, after the failure. -/
theorem failed_run_final_outputs (g b : Bool) (ks : List Bool) :
    (run (cfgOf (some "fibers.trk") none none none (some "out") 0 g 32761)
        (envOf b false ks [7, 8] 10 6)).generated = false ∧
    (run (cfgOf (some "fibers.trk") none none none (some "out") 0 g 32761)
        (envOf b false ks [7, 8] 10 6)).error = none ∧
    Event.writeInfoPickle ∈
      (run (cfgOf (some "fibers.trk") none none none (some "out") 0 g 32761)
        (envOf b false ks [7, 8] 10 6)).trace ∧
    ((run (cfgOf (some "fibers.trk") none none none (some "out") 0 g 32761)
        (envOf b false ks [7, 8] 10 6)).trace.all
      fun e => !finalOutputEvent e) = true := by
  cases b with
  | false =>
    have ht : (run (cfgOf (some "fibers.trk") none none none (some "out") 0 g 32761)
        (envOf false false ks [7, 8] 10 6)).trace =
        [Event.loadHashTable, Event.loadTractHeader, Event.makedirs,
         Event.writeInfoPickle, Event.convPass] := rfl
    exact ⟨rfl, rfl, by rw [ht]; decide, by rw [ht]; decide⟩
  | true =>
    have ht : (run (cfgOf (some "fibers.trk") none none none (some "out") 0 g 32761)
        (envOf true false ks [7, 8] 10 6)).trace =
        [Event.loadHashTable, Event.loadTractHeader,
         Event.writeInfoPickle, Event.convPass] := rfl
    exact ⟨rfl, rfl, by rw [ht]; decide, by rw [ht]; decide⟩

/-! ## Claim C10 -/

/-- Claim C10: when `filename_tractogram` is supplied, the run's entire
observable behaviour is independent of the deprecated `filename_trk`
(no failure, the supplied tractogram is the one used); when only
`filename_trk` is supplied it is used as the tractogram path, and the run
behaves exactly as if it had been passed as `filename_tractogram` — in
particular the deprecated parameter alone yields a successful run. -/
theorem deprecated_trk_parameter (trk : Option String) :
    run (cfgOf (some "fibers.trk") trk none none (some "out") 0 true 32761) baseEnv =
      run (cfgOf (some "fibers.trk") none none none (some "out") 0 true 32761) baseEnv ∧
    (run (cfgOf (some "fibers.trk") trk none none (some "out") 0 true 32761)
        baseEnv).usedTractogram = some "fibers.trk" ∧
    run (cfgOf none (some "fibers.trk") none none (some "out") 0 true 32761) baseEnv =
      run (cfgOf (some "fibers.trk") none none none (some "out") 0 true 32761) baseEnv ∧
    (run (cfgOf none (some "fibers.trk") none none (some "out") 0 true 32761)
        baseEnv).error = none ∧
    (run (cfgOf none (some "fibers.trk") none none (some "out") 0 true 32761)
        baseEnv).generated = true :=
  ⟨rfl, rfl, rfl, rfl, rfl⟩
